import Mathlib

/-!
Verification development for the juno proxy server.

The definitions below are a shallow embedding of the Rust sources:
byte buffers become `List Nat` (each element a byte value `< 256`),
big-endian integer reads become explicit arithmetic, fallible code
returns `Except`/`ParseOutcome`, and abnormal termination of the Rust
code (a thread panic, e.g. an out-of-bounds slice index) is modelled by
a dedicated `aborted` outcome distinct from every error value.
-/

deriving instance DecidableEq for Except

namespace Juno

/-- Kinds of I/O failures the SOCKS read loops can surface.
`unexpectedEof` models `read_buf` returning 0 (peer closed);
`blocked` models a read that suspends forever because the modelled
client trace has no further data. -/
inductive IoKind where
  | unexpectedEof
  | blocked
deriving DecidableEq

/-- `socks::Error` from `socks/mod.rs`: `NeedMoreData | Protocol(String) | Io(io::Error)`. -/
inductive Error where
  | needMoreData
  | protocol (msg : String)
  | io (k : IoKind)
deriving DecidableEq

/-- `socks::SocketAddr` from `socks/mod.rs`: `V4(SocketAddrV4) | V6(SocketAddrV6) | Raw(String, u16)`.
IPv4/IPv6 addresses are the numeric value of their big-endian octets; the raw
domain is kept as its byte list (the Rust `String` contents). -/
inductive SocketAddr where
  | v4 (ip : Nat) (port : Nat)
  | v6 (ip : Nat) (port : Nat)
  | raw (domain : List Nat) (port : Nat)
deriving DecidableEq

/-- Big-endian byte-list to natural number, as performed by `Buf::get_u16`,
`get_u32` and `get_u128` on the listed bytes. -/
def beNat (l : List Nat) : Nat :=
  l.foldl (fun acc b => acc * 256 + b) 0

/-- UTF-8 validity of a byte sequence, as decided by Rust's
`String::from_utf8` (RFC 3629: no continuation-lead bytes, no overlong
encodings, no surrogates, nothing above U+10FFFF). -/
def utf8Valid : List Nat → Bool
  | [] => true
  | b :: rest =>
    if b < 0x80 then utf8Valid rest
    else if b < 0xC2 then false
    else if b < 0xE0 then
      match rest with
      | b1 :: r => if 0x80 ≤ b1 && b1 < 0xC0 then utf8Valid r else false
      | [] => false
    else if b < 0xF0 then
      match rest with
      | b1 :: b2 :: r =>
        if (0x80 ≤ b1 && b1 < 0xC0) && (0x80 ≤ b2 && b2 < 0xC0)
            && !(b = 0xE0 && b1 < 0xA0) && !(b = 0xED && 0xA0 ≤ b1) then utf8Valid r
        else false
      | _ => false
    else if b < 0xF5 then
      match rest with
      | b1 :: b2 :: b3 :: r =>
        if (0x80 ≤ b1 && b1 < 0xC0) && (0x80 ≤ b2 && b2 < 0xC0) && (0x80 ≤ b3 && b3 < 0xC0)
            && !(b = 0xF0 && b1 < 0x90) && !(b = 0xF4 && 0x90 ≤ b1) then utf8Valid r
        else false
      | _ => false
    else false

/-- Result of running a piece of fallible Rust code: a value, an `Error`,
or `aborted` — the Rust thread panicking (abnormal termination that is
not an `Error` value). -/
inductive ParseOutcome (α : Type) where
  | ok (val : α)
  | err (e : Error)
  | aborted
deriving DecidableEq

namespace V4

/-- `socks::v4::Request`: `Connect(SocketAddr, String) | Bind(SocketAddr, String)`
(the string is the userid, kept as its byte list). -/
inductive Request where
  | connect (addr : SocketAddr) (user : List Nat)
  | bind (addr : SocketAddr) (user : List Nat)
deriving DecidableEq

/-- The address field of a v4 request. -/
def Request.addr : Request → SocketAddr
  | .connect a _ => a
  | .bind a _ => a

/-- `BufRead::read_until(0, vec)` on the remaining bytes: returns the bytes
read (up to and including the first 0, or everything when no 0 occurs)
together with the bytes left in the buffer. -/
def readUntilZero : List Nat → List Nat × List Nat
  | [] => ([], [])
  | b :: rest =>
    if b = 0 then ([0], rest)
    else
      let p := readUntilZero rest
      (b :: p.1, p.2)

/-- `Request::read_string` (v4.rs:40-49): `read_until(0)`, then index
`vec[len - 1]` — when `len = 0` (empty buffer) the index underflows and the
Rust thread panics, modelled by `aborted`; when the last byte read is not the
terminator, `NeedMoreData`; otherwise drop the terminator and validate UTF-8
(`Protocol` error on invalid bytes). -/
def read_string (buf : List Nat) : ParseOutcome (List Nat × List Nat) :=
  match (readUntilZero buf).1.getLast? with
  | none => .aborted
  | some b =>
    if b = 0 then
      if utf8Valid (readUntilZero buf).1.dropLast then
        .ok ((readUntilZero buf).1.dropLast, (readUntilZero buf).2)
      else .err (.protocol "invalid utf-8 in string")
    else .err .needMoreData

/-- Big-endian `get_u16` of two bytes. -/
def portOf (b1 b2 : Nat) : Nat := b1 * 256 + b2

/-- Big-endian `get_u32` of four bytes. -/
def ipOf (b3 b4 b5 b6 : Nat) : Nat := ((b3 * 256 + b4) * 256 + b5) * 256 + b6

/-- The final `match code` of `Request::from_buf`: code 1 is `Connect`,
code 2 is `Bind` (`from_buf` guarantees `code ∈ {1, 2}`). -/
def mkRequest (code : Nat) (addr : SocketAddr) (user : List Nat) : Request :=
  if code = 1 then .connect addr user else .bind addr user

/-- `socks::v4::Request::from_buf` (v4.rs:13-38), acting on the bytes after
the version octet. Returns the decoded request together with the bytes the
decoder did not consume. `NeedMoreData` when fewer than 8 bytes remain,
`Protocol` on an unknown command, then the NUL-terminated userid; when the
4-byte IP value lies in `1..0x100` a NUL-terminated domain follows and the
address is `Raw`, otherwise the address is `V4`. -/
def from_buf : List Nat → ParseOutcome (Request × List Nat)
  | b0 :: b1 :: b2 :: b3 :: b4 :: b5 :: b6 :: tail =>
    if tail = [] then .err .needMoreData
    else if b0 = 1 ∨ b0 = 2 then
      match read_string tail with
      | .ok (user, rest1) =>
        if 1 ≤ ipOf b3 b4 b5 b6 ∧ ipOf b3 b4 b5 b6 < 256 then
          match read_string rest1 with
          | .ok (dom, rest2) => .ok (mkRequest b0 (.raw dom (portOf b1 b2)) user, rest2)
          | .err e => .err e
          | .aborted => .aborted
        else .ok (mkRequest b0 (.v4 (ipOf b3 b4 b5 b6) (portOf b1 b2)) user, rest1)
      | .err e => .err e
      | .aborted => .aborted
    else .err (.protocol "illegal request")
  | _ => .err .needMoreData

/-- `socks::v4::Response`. -/
inductive Response where
  | granted
  | rejected
deriving DecidableEq

/-- `From<Response> for Bytes` (v4.rs:58-74): the 8-byte reply
`0x00 · status · port(2, zero) · ip(4, zero)` with status 90 (Granted)
or 91 (Rejected). -/
def Response.toBytes : Response → List Nat
  | .granted => [0, 90, 0, 0, 0, 0, 0, 0]
  | .rejected => [0, 91, 0, 0, 0, 0, 0, 0]

/-- `socks::v4::read_request` (v4.rs:106-120): repeatedly `read_buf` a chunk
into the growing buffer, then parse a copy of the whole buffer; loop on
`NeedMoreData`. The modelled client trace supplies the chunks; an empty chunk
models `read_buf` returning 0 (EOF), an exhausted trace models a read that
never completes. In addition to the decoded request, the model exposes the
bytes of the local buffer the decoder did not consume (which the source drops
on return) and the chunks not yet read. -/
def read_request_from (buf : List Nat) : List (List Nat) → ParseOutcome (Request × List Nat × List (List Nat))
  | [] => .err (.io .blocked)
  | c :: rest =>
    if c = [] then .err (.io .unexpectedEof)
    else
      match from_buf (buf ++ c) with
      | .ok (req, residual) => .ok (req, residual, rest)
      | .err .needMoreData => read_request_from (buf ++ c) rest
      | .err e => .err e
      | .aborted => .aborted

/-- The dial target of `handle_request` (v4.rs:79-92): for `Connect` the code
calls `TcpStream::connect` directly on the parsed address (it consults no
`Dialer`); `Bind` dials nothing. -/
def connectTarget : Request → Option SocketAddr
  | .connect a _ => some a
  | .bind _ _ => none

/-- The reply chosen by `handle_request` (v4.rs:79-94): `Granted` when the
`Connect` upstream connection succeeds, `Rejected` on connect failure and for
`Bind`. `connectOk` is the outcome of the `TcpStream::connect` call. -/
def response (req : Request) (connectOk : Bool) : Response :=
  match req with
  | .connect _ _ => if connectOk then .granted else .rejected
  | .bind _ _ => .rejected

/-- The client→upstream byte flow of `handle_request` (v4.rs:76-104):
after `read_request` returns, its local buffer — including any bytes past the
end of the request frame — is dropped; `copy_bidirectional` then forwards only
bytes read from the socket afterwards, i.e. the chunks of the trace not yet
consumed by the read loop. `none` when no splice happens. -/
def clientToUpstream (chunks : List (List Nat)) (connectOk : Bool) : Option (List Nat) :=
  match read_request_from [] chunks with
  | .ok (req, _, rest) =>
    match req with
    | .connect _ _ => if connectOk then some (rest.foldl (fun acc c => acc ++ c) []) else none
    | .bind _ _ => none
  | _ => none

end V4

namespace V5

/-- `socks::v5::Request`: `Connect | Bind | UdpAssociate`, each carrying a `SocketAddr`. -/
inductive Request where
  | connect (addr : SocketAddr)
  | bind (addr : SocketAddr)
  | udpAssociate (addr : SocketAddr)
deriving DecidableEq

/-- The address field of a v5 request. -/
def Request.addr : Request → SocketAddr
  | .connect a => a
  | .bind a => a
  | .udpAssociate a => a

/-- The final `match cmd` of the v5 `Request::from_buf`: cmd 1 is `Connect`,
2 is `Bind`, 3 is `UdpAssociate` (`from_buf` guarantees `cmd ∈ {1, 2, 3}`). -/
def mkRequest (cmd : Nat) (addr : SocketAddr) : Request :=
  if cmd = 1 then .connect addr
  else if cmd = 2 then .bind addr
  else .udpAssociate addr

/-- `socks::v5::Request::from_buf` (v5.rs:16-71), acting on the bytes after
the second version octet. `NeedMoreData` below 2 bytes; the reserved octet is
checked (before command validity) and must be 0; then the command must be
1, 2 or 3; then the address: type 1 = 4-byte IPv4 + port, type 4 = 16-byte
IPv6 + port, type 3 = length-prefixed UTF-8 domain + port, anything else a
`Protocol` error. Returns the request and the unconsumed bytes. -/
def from_buf : List Nat → Except Error (Request × List Nat)
  | b0 :: b1 :: rest =>
    if b1 ≠ 0 then .error (.protocol "reserved octet is not 0")
    else if b0 = 1 ∨ b0 = 2 ∨ b0 = 3 then
      match rest with
      | [] => .error .needMoreData
      | a :: rest2 =>
        if a = 1 then
          if rest2.length < 6 then .error .needMoreData
          else .ok (mkRequest b0 (.v4 (beNat (rest2.take 4)) (beNat ((rest2.drop 4).take 2))),
                    rest2.drop 6)
        else if a = 4 then
          if rest2.length < 18 then .error .needMoreData
          else .ok (mkRequest b0 (.v6 (beNat (rest2.take 16)) (beNat ((rest2.drop 16).take 2))),
                    rest2.drop 18)
        else if a = 3 then
          match rest2 with
          | [] => .error .needMoreData
          | len :: rest3 =>
            if rest3.length < len + 2 then .error .needMoreData
            else if utf8Valid (rest3.take len) then
              .ok (mkRequest b0 (.raw (rest3.take len) (beNat ((rest3.drop len).take 2))),
                   rest3.drop (len + 2))
            else .error (.protocol "invalid utf-8 in domain")
        else .error (.protocol "illegal address type")
    else .error (.protocol "illegal request")
  | _ => .error .needMoreData

end V5

/-- Outcome of `Dialer::dial`: a connected stream (identified by a number),
an I/O error, or `aborted` — the panic raised by `futures::future::select_ok`
when the iterator of connect attempts it is given is empty. -/
inductive DialOutcome where
  | ok (stream : Nat)
  | err (msg : String)
  | aborted
deriving DecidableEq

/-- `futures::future::select_ok` over the connect attempts, with the list in
completion order: the first successful attempt wins; when every attempt fails
the error of the last attempt to complete is returned; on an empty list the
combinator asserts and the thread panics (`aborted`). -/
def select_ok : List (Except String Nat) → DialOutcome
  | [] => .aborted
  | [r] =>
    match r with
    | .ok s => .ok s
    | .error e => .err e
  | r :: rest =>
    match r with
    | .ok s => .ok s
    | .error _ => select_ok rest

/-- `Dialer::dial` (lib.rs:39-46): resolve the target, start one `dial_one`
connect attempt per candidate and race them with `select_ok`. The model takes
the per-candidate attempt outcomes, in completion order, as input. -/
def dial (attempts : List (Except String Nat)) : DialOutcome :=
  select_ok attempts

/-- `main::bind_all` inner loop (main.rs:138-146): `TcpListener::bind` each
listed address in order and `try_collect`, stopping at the first failure.
The accumulator holds the addresses already bound by this process; the OS
refuses to bind an address that is already bound (address in use), and the
model assumes a bind to a fresh address succeeds. -/
def bindAllGo : List String → List String → Except String (List String)
  | [], bound => .ok bound.reverse
  | a :: rest, bound =>
    if a ∈ bound then .error ("failed to bind to " ++ a)
    else bindAllGo rest (a :: bound)

/-- `main::bind_all` (main.rs:138-146): the addresses passed on the command
line are bound one by one, exactly as listed. On success the returned
listeners correspond to the bound addresses in order. -/
def bind_all (addrs : List String) : Except String (List String) :=
  bindAllGo addrs []

/-- `http::uri::Authority`: host plus optional explicit port. -/
structure Authority where
  host : String
  port : Option Nat
deriving DecidableEq

/-- `http::Uri`, as the request target hyper hands to the session: optional
scheme, optional authority, optional path-and-query. `path_and_query()` is
`None` only for authority-form targets (CONNECT-style `example.com:80`,
which carry no scheme); whenever a scheme is present the path-and-query is
present too, possibly empty (`Uri::from_parts` rejects a scheme without a
path-and-query). -/
structure Uri where
  scheme : Option String
  authority : Option Authority
  pathAndQuery : Option String
deriving DecidableEq

/-- `http::Uri::default()`: the URI `/` (no scheme, no authority,
path-and-query `/`). This is the value `unwrap_or_default` produces in
`transform_request` when the original target has no path-and-query. -/
def uriDefault : Uri := { scheme := none, authority := none, pathAndQuery := some "/" }

/-- An HTTP/1.1 request as seen by the forward proxy: method, target URI and
the header list in order, each header with its original name casing. -/
structure HttpRequest where
  method : String
  uri : Uri
  headers : List (String × String)
deriving DecidableEq

/-- ASCII-lowercase one character. -/
def asciiLower (c : Char) : Char :=
  if 65 ≤ c.toNat ∧ c.toNat ≤ 90 then Char.ofNat (c.toNat + 32) else c

/-- ASCII-lowercase a header name (header-name matching in `HeaderMap` is
case-insensitive; names are normalised to lowercase). -/
def lowerName (s : String) : String := ⟨s.data.map asciiLower⟩

/-- Whether a header is one of the two hop-by-hop headers the transform
removes: `Proxy-Connection` or `Proxy-Authorization`, matched
case-insensitively. -/
def isProxyHopHeader (n : String) : Bool :=
  lowerName n = "proxy-connection" || lowerName n = "proxy-authorization"

/-- `Session::transform_request` (http.rs:109-122): replace the request
target with its path-and-query (a URI with neither scheme nor authority),
falling back to `Uri::default()` when absent, and remove the
`Proxy-Connection` and `Proxy-Authorization` headers. -/
def transform_request (req : HttpRequest) : HttpRequest :=
  { req with
    uri :=
      match req.uri.pathAndQuery with
      | some pq => { scheme := none, authority := none, pathAndQuery := some pq }
      | none => uriDefault
    headers := req.headers.filter (fun h => !(isProxyHopHeader h.1)) }

/-- Rendering of a `Uri` as the request-target string
(`scheme://authority` followed by the path-and-query, each part only when
present), matching the `Display` of `http::Uri`. -/
def uriTargetString (u : Uri) : String :=
  (match u.scheme with
   | some s => s ++ "://"
   | none => "")
  ++ (match u.authority with
      | some a => a.host ++ (match a.port with
        | some p => ":" ++ toString p
        | none => "")
      | none => "")
  ++ (match u.pathAndQuery with
      | some pq => pq
      | none => "")

/-! ### Helper lemmas -/

theorem readUntilZero_append (s rest : List Nat) (h : (0 : Nat) ∉ s) :
    V4.readUntilZero (s ++ 0 :: rest) = (s ++ [0], rest) := by
  induction s with
  | nil => simp [V4.readUntilZero]
  | cons a s ih =>
    have ha : a ≠ 0 := fun e => h (by simp [e])
    have hs : (0 : Nat) ∉ s := fun hm => h (List.mem_cons_of_mem _ hm)
    simp [V4.readUntilZero, ha, ih hs]

theorem read_string_append (s rest : List Nat) (h0 : (0 : Nat) ∉ s) (hv : utf8Valid s = true) :
    V4.read_string (s ++ 0 :: rest) = .ok (s, rest) := by
  have hz := readUntilZero_append s rest h0
  simp [V4.read_string, hz, List.getLast?_concat, List.dropLast_concat, hv]

theorem read_string_ok_utf8 {buf : List Nat} {p : List Nat × List Nat}
    (h : V4.read_string buf = .ok p) : utf8Valid p.1 = true := by
  unfold V4.read_string at h
  split at h
  · exact absurd h (by simp)
  · split at h
    · split at h
      · rename_i hu
        injection h with h'
        subst h'
        exact hu
      · exact absurd h (by simp)
    · exact absurd h (by simp)

theorem v4_addr_mkRequest (c : Nat) (a : SocketAddr) (u : List Nat) :
    (V4.mkRequest c a u).addr = a := by
  unfold V4.mkRequest
  split <;> rfl

theorem v5_addr_mkRequest (c : Nat) (a : SocketAddr) :
    (V5.mkRequest c a).addr = a := by
  unfold V5.mkRequest
  split
  · rfl
  · split <;> rfl

theorem bindAllGo_ok (l : List String) (acc res : List String)
    (h : bindAllGo l acc = .ok res) :
    res = acc.reverse ++ l ∧ l.Nodup ∧ ∀ a ∈ l, a ∉ acc := by
  induction l generalizing acc with
  | nil =>
    simp [bindAllGo] at h
    subst h
    simp
  | cons a l ih =>
    unfold bindAllGo at h
    split at h
    · exact absurd h (by simp)
    · rename_i hmem
      obtain ⟨h1, h2, h3⟩ := ih (a :: acc) h
      refine ⟨by rw [h1]; simp, ?_, ?_⟩
      · exact List.nodup_cons.mpr ⟨fun hal => (h3 a hal) (List.mem_cons_self a acc), h2⟩
      · intro b hb
        rcases List.mem_cons.mp hb with rfl | hbl
        · exact hmem
        · exact fun hacc => h3 b hbl (List.mem_cons_of_mem _ hacc)

/-! ### Claims -/

/-- Claim C1 (code-bug evaluation): a SOCKSv4 Connect session whose single
client chunk carries the 8-byte request frame plus two pipelined tunnel bytes
`[222, 173]`. The read loop consumes the whole chunk; the decoder leaves
`[222, 173]` unconsumed in the local buffer, which `read_request` drops —
`handle_request` then splices only bytes read afterwards, so the client→
upstream flow is empty and the two residual bytes are lost, contradicting the
claim that every residual byte is written to the upstream before copying. -/
theorem c1_residual_bytes_dropped :
    V4.read_request_from [] [[1, 1, 187, 127, 0, 0, 1, 0, 222, 173]]
      = .ok (.connect (.v4 2130706433 443) [], [222, 173], [])
    ∧ V4.clientToUpstream [[1, 1, 187, 127, 0, 0, 1, 0, 222, 173]] true = some [] := by
  decide

/-- Claim C2 (code-bug evaluation): the 8-byte buffer
`[1, 0, 80, 0, 0, 0, 1, 0]` is a proper prefix of the well-formed SOCKSv4A
frame `[1, 0, 80, 0, 0, 0, 1, 0, 104, 105, 0]` (Connect, port 80, v4A
sentinel IP 1, empty userid, domain "hi"), yet decoding it panics
(`read_string` indexes `vec[len - 1]` with `len = 0` on the empty
post-userid buffer) instead of returning `NeedMoreData`. The second conjunct
shows the completed frame decodes successfully. -/
theorem c2_decoder_aborts_inside_v4a_frame :
    V4.from_buf [1, 0, 80, 0, 0, 0, 1, 0] = .aborted
    ∧ V4.from_buf [1, 0, 80, 0, 0, 0, 1, 0, 104, 105, 0]
      = .ok (.connect (.raw [104, 105] 80) [], []) := by
  decide

/-- Claim C3 (code-bug evaluation): for the SOCKSv4 Connect request
`[1, 1, 187, 127, 0, 0, 1, 0]` (Connect to 127.0.0.1:443, empty userid),
`handle_request` connects directly to the parsed address via
`TcpStream::connect` — `connectTarget` is the raw parsed address and no
`Dialer` is consulted — writing the 8-byte `Granted` reply on connect
success and the `Rejected` reply on failure. -/
theorem c3_v4_handler_connects_directly :
    V4.from_buf [1, 1, 187, 127, 0, 0, 1, 0]
      = .ok (.connect (.v4 2130706433 443) [], [])
    ∧ V4.connectTarget (.connect (.v4 2130706433 443) []) = some (.v4 2130706433 443)
    ∧ V4.response (.connect (.v4 2130706433 443) []) true = .granted
    ∧ (V4.response (.connect (.v4 2130706433 443) []) true).toBytes
      = [0, 90, 0, 0, 0, 0, 0, 0]
    ∧ V4.response (.connect (.v4 2130706433 443) []) false = .rejected
    ∧ (V4.response (.connect (.v4 2130706433 443) []) false).toBytes
      = [0, 91, 0, 0, 0, 0, 0, 0] := by
  decide

/-- Claim C4: decoding a complete SOCKSv4 frame
`cmd · port(2) · ip(4) · userid · 0x00` whose IP value is 0 or at least 256
yields the `V4(ip, port)` address with the whole frame consumed and no domain
bytes required; when the IP value lies in `[1, 255]` the decoder additionally
consumes a NUL-terminated domain and yields the `Domain(domain, port)`
address. -/
theorem c4_v4_target_decode
    (b0 b1 b2 b3 b4 b5 b6 : Nat) (user dom : List Nat)
    (hcmd : b0 = 1 ∨ b0 = 2)
    (hu0 : (0 : Nat) ∉ user) (huv : utf8Valid user = true)
    (hd0 : (0 : Nat) ∉ dom) (hdv : utf8Valid dom = true) :
    (V4.ipOf b3 b4 b5 b6 = 0 ∨ 256 ≤ V4.ipOf b3 b4 b5 b6 →
      V4.from_buf (b0 :: b1 :: b2 :: b3 :: b4 :: b5 :: b6 :: (user ++ [0]))
        = .ok (V4.mkRequest b0 (.v4 (V4.ipOf b3 b4 b5 b6) (V4.portOf b1 b2)) user, []))
    ∧ (1 ≤ V4.ipOf b3 b4 b5 b6 ∧ V4.ipOf b3 b4 b5 b6 < 256 →
      V4.from_buf (b0 :: b1 :: b2 :: b3 :: b4 :: b5 :: b6 :: (user ++ [0] ++ (dom ++ [0])))
        = .ok (V4.mkRequest b0 (.raw dom (V4.portOf b1 b2)) user, [])) := by
  constructor
  · intro hip
    have h1 : V4.read_string (user ++ 0 :: ([] : List Nat)) = .ok (user, []) :=
      read_string_append user [] hu0 huv
    have hnr : ¬(1 ≤ V4.ipOf b3 b4 b5 b6 ∧ V4.ipOf b3 b4 b5 b6 < 256) := by omega
    simp [V4.from_buf, h1, hcmd, hnr]
  · intro hip
    have he : (user ++ [0] ++ (dom ++ [0]) : List Nat) = user ++ 0 :: (dom ++ [0]) := by
      simp
    have h1 : V4.read_string (user ++ 0 :: (dom ++ [0])) = .ok (user, dom ++ [0]) :=
      read_string_append user (dom ++ [0]) hu0 huv
    have h2 : V4.read_string (dom ++ 0 :: ([] : List Nat)) = .ok (dom, []) :=
      read_string_append dom [] hd0 hdv
    simp [V4.from_buf, he, h1, h2, hcmd, hip]

/-- Witness for C4: both halves at concrete frames — Connect to
127.0.0.1:80 with userid "h" (IP value 2130706433 ≥ 256, address `V4`),
and Connect with sentinel IP value 7 ∈ [1, 255], userid "h", domain "w"
(address `Domain`). -/
theorem c4_v4_target_decode_witness :
    V4.from_buf (1 :: 0 :: 80 :: 127 :: 0 :: 0 :: 1 :: ([104] ++ [0]))
      = .ok (V4.mkRequest 1 (.v4 (V4.ipOf 127 0 0 1) (V4.portOf 0 80)) [104], [])
    ∧ V4.from_buf (1 :: 0 :: 80 :: 0 :: 0 :: 0 :: 7 :: ([104] ++ [0] ++ ([119] ++ [0])))
      = .ok (V4.mkRequest 1 (.raw [119] (V4.portOf 0 80)) [104], []) :=
  ⟨(c4_v4_target_decode 1 0 80 127 0 0 1 [104] [119] (Or.inl rfl)
      (by decide) (by decide) (by decide) (by decide)).1 (by decide),
   (c4_v4_target_decode 1 0 80 0 0 0 7 [104] [119] (Or.inl rfl)
      (by decide) (by decide) (by decide) (by decide)).2 (by decide)⟩

/-- Claim C5 counterexample: a non-CONNECT request whose target is in
authority form (`example.com:80` — no scheme, an authority, and no
path-and-query; the only `Uri` shape whose `path_and_query()` is `None`).
Such a request has an authority, so `handle_request` applies the transform;
`unwrap_or_default()` then yields `Uri::default()` and the request-target
renders as "/", not as the empty string the claim requires. -/
theorem c5_counterexample_target_is_slash :
    uriTargetString
        (transform_request ⟨"GET", ⟨none, some ⟨"example.com", some 80⟩, none⟩, []⟩).uri
      = "/"
    ∧ uriTargetString
        (transform_request ⟨"GET", ⟨none, some ⟨"example.com", some 80⟩, none⟩, []⟩).uri
      ≠ "" := by
  decide

/-- Claim C5 as amended: after the transform the request-target has no
scheme and no authority, and its path-and-query equals the original
path-and-query when present, else the root path "/". -/
theorem c5_transform_origin_form (req : HttpRequest) :
    (transform_request req).uri.scheme = none
    ∧ (transform_request req).uri.authority = none
    ∧ (transform_request req).uri.pathAndQuery = some (req.uri.pathAndQuery.getD "/") := by
  rcases hpq : req.uri.pathAndQuery with _ | pq <;>
    simp [transform_request, hpq, uriDefault]

/-- Claim C6 counterexample: the SOCKSv5 request `[1, 0, 3, 0, 0, 80]`
(Connect, domain address type with length octet 0) and the SOCKSv4A request
`[1, 0, 80, 0, 0, 0, 1, 0, 0]` (sentinel IP 1, empty userid, empty domain)
both decode successfully to a `Domain` address whose name is empty,
violating the claimed non-emptiness invariant. -/
theorem c6_counterexample_empty_domain :
    V5.from_buf [1, 0, 3, 0, 0, 80] = .ok (.connect (.raw [] 80), [])
    ∧ V4.from_buf [1, 0, 80, 0, 0, 0, 1, 0, 0] = .ok (.connect (.raw [] 80) [], []) := by
  decide

/-- Claim C6 as amended: every `Domain` address produced by the SOCKSv4 or
SOCKSv5 request decoder has a valid-UTF-8 name (the name may be empty). -/
theorem c6_decoded_domains_are_utf8 :
    (∀ (buf : List Nat) (p : V4.Request × List Nat) (dom : List Nat) (port : Nat),
      V4.from_buf buf = .ok p → p.1.addr = .raw dom port → utf8Valid dom = true)
    ∧ (∀ (buf : List Nat) (p : V5.Request × List Nat) (dom : List Nat) (port : Nat),
      V5.from_buf buf = .ok p → p.1.addr = .raw dom port → utf8Valid dom = true) := by
  constructor
  · intro buf p dom port h ha
    rcases buf with _ | ⟨b0, buf⟩
    · exact absurd h (by simp [V4.from_buf])
    rcases buf with _ | ⟨b1, buf⟩
    · exact absurd h (by simp [V4.from_buf])
    rcases buf with _ | ⟨b2, buf⟩
    · exact absurd h (by simp [V4.from_buf])
    rcases buf with _ | ⟨b3, buf⟩
    · exact absurd h (by simp [V4.from_buf])
    rcases buf with _ | ⟨b4, buf⟩
    · exact absurd h (by simp [V4.from_buf])
    rcases buf with _ | ⟨b5, buf⟩
    · exact absurd h (by simp [V4.from_buf])
    rcases buf with _ | ⟨b6, tail⟩
    · exact absurd h (by simp [V4.from_buf])
    simp only [V4.from_buf] at h
    split at h
    · exact absurd h (by simp)
    · split at h
      · split at h
        · rename_i user rest1 hrs1
          split at h
          · split at h
            · rename_i dom2 rest2 hrs2
              injection h with h'
              subst h'
              rw [v4_addr_mkRequest] at ha
              injection ha with hd hp
              subst hd
              exact read_string_ok_utf8 hrs2
            · exact absurd h (by simp)
            · exact absurd h (by simp)
          · injection h with h'
            subst h'
            rw [v4_addr_mkRequest] at ha
            exact absurd ha (by simp)
        · exact absurd h (by simp)
        · exact absurd h (by simp)
      · exact absurd h (by simp)
  · intro buf p dom port h ha
    rcases buf with _ | ⟨b0, buf⟩
    · exact absurd h (by simp [V5.from_buf])
    rcases buf with _ | ⟨b1, rest⟩
    · exact absurd h (by simp [V5.from_buf])
    simp only [V5.from_buf] at h
    split at h
    · exact absurd h (by simp)
    · split at h
      · split at h
        · exact absurd h (by simp)
        · rename_i a rest2
          split at h
          · split at h
            · exact absurd h (by simp)
            · injection h with h'
              subst h'
              rw [v5_addr_mkRequest] at ha
              exact absurd ha (by simp)
          · split at h
            · split at h
              · exact absurd h (by simp)
              · injection h with h'
                subst h'
                rw [v5_addr_mkRequest] at ha
                exact absurd ha (by simp)
            · split at h
              · split at h
                · exact absurd h (by simp)
                · rename_i len rest3
                  split at h
                  · exact absurd h (by simp)
                  · split at h
                    · rename_i hu
                      injection h with h'
                      subst h'
                      rw [v5_addr_mkRequest] at ha
                      injection ha with hd hp
                      subst hd
                      exact hu
                    · exact absurd h (by simp)
              · exact absurd h (by simp)
      · exact absurd h (by simp)

/-- Witness for C6 (amended): the v5 decoder on
`[3, 0, 3, 4, 104, 111, 103, 101, 18, 52]` (UdpAssociate to domain "hoge",
port 4660) produces a valid-UTF-8 domain name. -/
theorem c6_decoded_domains_are_utf8_witness : utf8Valid [104, 111, 103, 101] = true :=
  c6_decoded_domains_are_utf8.2 [3, 0, 3, 4, 104, 111, 103, 101, 18, 52]
    (V5.Request.udpAssociate (.raw [104, 111, 103, 101] 4660), []) [104, 111, 103, 101] 4660
    (by decide) (by decide)

/-- Claim C7 counterexample: when resolution yields no candidates,
`Dialer::dial` hands `select_ok` an empty iterator of connect attempts,
which asserts and panics (`aborted`) — no address-unavailable error value is
returned. -/
theorem c7_counterexample_empty_resolution :
    dial [] = DialOutcome.aborted := by
  decide

/-- Claim C7 as amended: when resolution yields at least one candidate and
every connect attempt fails, `Dialer::dial` returns the error of the last
attempt; when resolution yields no candidates, `select_ok` panics instead of
returning an error value. -/
theorem c7_dial_all_fail_last_error (es : List String) (e : String)
    (h : es.getLast? = some e) :
    dial (es.map Except.error) = .err e := by
  induction es with
  | nil => exact absurd h (by simp)
  | cons a es ih =>
    rcases es with _ | ⟨b, es2⟩
    · simp at h
      subst h
      rfl
    · have h' : (b :: es2).getLast? = some e := by
        rwa [List.getLast?_cons_cons] at h
      simpa [dial, select_ok] using ih h'

/-- Witness for C7: two failing attempts; `dial` returns the second
(last) error. -/
theorem c7_dial_all_fail_last_error_witness :
    dial (List.map Except.error ["refused-a", "refused-b"]) = .err "refused-b" :=
  c7_dial_all_fail_last_error ["refused-a", "refused-b"] "refused-b" (by decide)

/-- Claim C8: any SOCKSv5 request buffer holding at least the command and
reserved octets with a non-zero reserved octet decodes to the `Protocol`
error "reserved octet is not 0" — never `NeedMoreData`, never a request. -/
theorem c8_v5_reserved_octet_protocol_error (b0 b1 : Nat) (rest : List Nat)
    (h : b1 ≠ 0) :
    V5.from_buf (b0 :: b1 :: rest) = .error (.protocol "reserved octet is not 0") := by
  simp [V5.from_buf, h]

/-- Witness for C8: command octet 1, reserved octet 7. -/
theorem c8_v5_reserved_octet_protocol_error_witness :
    V5.from_buf [1, 7] = .error (.protocol "reserved octet is not 0") :=
  c8_v5_reserved_octet_protocol_error 1 7 [] (by decide)

/-- Claim C9 counterexample: listing the same listen address twice makes
`bind_all` attempt to bind it twice; the second attempt fails (address in
use) instead of being de-duplicated, while the de-duplicated list would bind
once and succeed. -/
theorem c9_counterexample_duplicate_listen :
    bind_all ["a", "a"] = .error "failed to bind to a"
    ∧ bind_all ["a"] = .ok ["a"] := by
  decide

/-- Claim C9 as amended: the listen addresses are bound exactly as listed,
with no de-duplication — `bind_all` succeeds only when the listed addresses
are pairwise distinct, in which case each is bound exactly once in order. -/
theorem c9_bind_all_no_dedup (addrs res : List String)
    (h : bind_all addrs = .ok res) :
    res = addrs ∧ addrs.Nodup := by
  obtain ⟨h1, h2, _⟩ := bindAllGo_ok addrs [] res h
  exact ⟨by simpa using h1, h2⟩

/-- Witness for C9: two distinct addresses bind in order. -/
theorem c9_bind_all_no_dedup_witness :
    (["a", "b"] : List String) = ["a", "b"] ∧ (["a", "b"] : List String).Nodup :=
  c9_bind_all_no_dedup ["a", "b"] ["a", "b"] (by decide)

/-- Claim C10: for every request, applying the request transform twice
equals applying it once; and every header whose name is not
(case-insensitively) `Proxy-Connection` or `Proxy-Authorization` survives
the transform with its exact original name casing and value. -/
theorem c10_transform_idempotent_preserves_headers (req : HttpRequest) :
    transform_request (transform_request req) = transform_request req
    ∧ ∀ h : String × String, h ∈ req.headers → isProxyHopHeader h.1 = false →
        h ∈ (transform_request req).headers := by
  constructor
  · rcases hpq : req.uri.pathAndQuery with _ | pq <;>
      simp [transform_request, hpq, uriDefault, List.filter_filter]
  · intro h hmem hn
    unfold transform_request
    exact List.mem_filter.mpr ⟨hmem, by simp [hn]⟩

/-- Witness for C10: a request with a `Host` header and a
`Proxy-Connection` header; the transform is idempotent on it and the `Host`
header survives verbatim. -/
theorem c10_transform_idempotent_preserves_headers_witness :
    transform_request (transform_request
        ⟨"GET", ⟨some "http", some ⟨"example.test", none⟩, some "/a?b"⟩,
          [("Host", "example.test"), ("Proxy-Connection", "keep-alive")]⟩)
      = transform_request
        ⟨"GET", ⟨some "http", some ⟨"example.test", none⟩, some "/a?b"⟩,
          [("Host", "example.test"), ("Proxy-Connection", "keep-alive")]⟩
    ∧ ("Host", "example.test")
      ∈ (transform_request
        ⟨"GET", ⟨some "http", some ⟨"example.test", none⟩, some "/a?b"⟩,
          [("Host", "example.test"), ("Proxy-Connection", "keep-alive")]⟩).headers :=
  ⟨(c10_transform_idempotent_preserves_headers
      ⟨"GET", ⟨some "http", some ⟨"example.test", none⟩, some "/a?b"⟩,
        [("Host", "example.test"), ("Proxy-Connection", "keep-alive")]⟩).1,
   (c10_transform_idempotent_preserves_headers
      ⟨"GET", ⟨some "http", some ⟨"example.test", none⟩, some "/a?b"⟩,
        [("Host", "example.test"), ("Proxy-Connection", "keep-alive")]⟩).2
     ("Host", "example.test") (by decide) (by decide)⟩

end Juno
